import Mathlib

/-!
Shallow embedding of the folhainvest client (src/folhainvest/folhainvest.py,
with the earlier draft src/folhainvest.py where noted) and proofs about it.

Python strings are modelled as Lean `String` (a list of characters);
Python `str.replace(old, new)` with a one-character `old` is a character
map (when `new` is one character) or a character filter (when `new` is
empty).  Python numbers are modelled with `Int` and `Rat`; a Python float
is carried by its `str()` representation where only that text matters.
A Python call that raises an uncaught exception is modelled as `none`.
-/

/-- Model of Python str.replace(old, new) for one-character old and new. -/
def pyReplaceChar (old new : Char) (s : String) : String :=
  ⟨s.data.map (fun c => if c = old then new else c)⟩

/-- Model of Python str.replace(old, two characters removed) i.e. replace(old, empty). -/
def pyRemoveChar (old : Char) (s : String) : String :=
  ⟨s.data.filter (fun c => c != old)⟩

/-- Model of list-level prefix test used by the substring model. -/
def startsWithL : List Char → List Char → Bool
  | [], _ => true
  | _ :: _, [] => false
  | a :: as, b :: bs => a = b && startsWithL as bs

/-- Model of Python substring containment (the `in` operator on str), on char lists. -/
def containsSub (needle : List Char) : List Char → Bool
  | [] => startsWithL needle []
  | c :: t => startsWithL needle (c :: t) || containsSub needle t

/-- Model of Python `needle in haystack` on strings. -/
def pyIn (needle haystack : String) : Bool :=
  containsSub needle.data haystack.data

/-- Strip ASCII whitespace from both ends, as Python int()/float() do before parsing. -/
def stripWs (cs : List Char) : List Char :=
  ((cs.dropWhile Char.isWhitespace).reverse.dropWhile Char.isWhitespace).reverse

/-- Numeric value of a digit list, most significant first. -/
def digitsVal (cs : List Char) : Nat :=
  cs.foldl (fun a c => 10 * a + (c.toNat - 48)) 0

/-- Consume an optional leading sign, returning the sign and the rest. -/
def parseSign : List Char → Int × List Char
  | '-' :: t => (-1, t)
  | '+' :: t => (1, t)
  | cs => (1, cs)

/-- Split a char list into its leading digit run and the rest. -/
def parseDigits (cs : List Char) : List Char × List Char :=
  (cs.takeWhile Char.isDigit, cs.dropWhile Char.isDigit)

/-- Model of Python int(text): optional surrounding whitespace, optional sign,
then a nonempty digit run; anything else raises ValueError (`none`). -/
def pyParseInt (s : String) : Option Int :=
  let cs := stripWs s.data
  let (sg, cs1) := parseSign cs
  if cs1 ≠ [] ∧ cs1.all Char.isDigit then some (sg * digitsVal cs1) else none

/-- Exponent part of a float literal: optional sign then a nonempty digit run. -/
def parseExpPart (cs : List Char) : Option Int :=
  let (sg, cs1) := parseSign cs
  let (ds, rest) := parseDigits cs1
  if ds = [] ∨ rest ≠ [] then none else some (sg * digitsVal ds)

/-- Scale a fraction by a signed power of ten, for the exponent of a float literal. -/
def applyExp (num : Int) (den : Nat) : Int → Rat
  | .ofNat k => mkRat (num * 10 ^ k) den
  | .negSucc k => mkRat num (den * 10 ^ (k + 1))

/-- Model of Python float(text) over exact rationals: optional whitespace and
sign, a mantissa `digits [. digits]` or `. digits`, and an optional
`e`/`E` exponent; anything else raises ValueError (`none`). -/
def pyParseFloat (s : String) : Option Rat :=
  let cs := stripWs s.data
  let (sg, cs1) := parseSign cs
  let (ip, r1) := parseDigits cs1
  let (fp, r2) :=
    match r1 with
    | '.' :: t => parseDigits t
    | _ => ([], r1)
  if ip = [] ∧ fp = [] then none
  else
    let num : Int := sg * (digitsVal ip * 10 ^ fp.length + digitsVal fp)
    let den : Nat := 10 ^ fp.length
    match r2 with
    | [] => some (mkRat num den)
    | 'e' :: t => (parseExpPart t).map (applyExp num den)
    | 'E' :: t => (parseExpPart t).map (applyExp num den)
    | _ => none

/-- FolhaInvest._cast_float: float(text.replace(".", "").replace(",", ".")). -/
def cast_float (text : String) : Option Rat :=
  pyParseFloat (pyReplaceChar ',' '.' (pyRemoveChar '.' text))

/-- FolhaInvest._cast_int: int(text.replace(".", "")). -/
def cast_int (text : String) : Option Int :=
  pyParseInt (pyRemoveChar '.' text)

/-- Python text.split(" ")[0]: the characters before the first space. -/
def firstSpaceTok (s : String) : String :=
  ⟨s.data.takeWhile (fun c => c ≠ ' ')⟩

/-- FolhaInvest._cast_rank: _cast_int(text.split(" ")[0]). -/
def cast_rank (text : String) : Option Int :=
  cast_int (firstSpaceTok text)

/-- FolhaInvest._cast_percentage: _cast_float(text.replace("%", "")). -/
def cast_percentage (text : String) : Option Rat :=
  cast_float (pyRemoveChar '%' text)

/-- Status codes carried by the Status record: the strings "OK" and "FAIL". -/
inductive StatusCode where
  | OK
  | FAIL
deriving DecidableEq

/-- Status namedtuple.  The description is Option String because in Python the
FAIL branch of an order forwards warning.h2.string, which can be None. -/
structure Status where
  status_code : StatusCode
  description : Option String
deriving DecidableEq

/-- The fixed host, FolhaInvest._host. -/
def host : String := "http://folhainvest.folha.uol.com.br"

/-- FolhaInvest._geturl: "%s/%s" % (host, page). -/
def geturl (page : String) : String := host ++ "/" ++ page

/-- FolhaInvest.login, packaged version (src/folhainvest/folhainvest.py lines
97-110), as a function of the set-cookie header of the login response.  The
check is Python substring containment of "FOLHA_KEY" in the header text. -/
def login (setCookieHeader : String) : Status :=
  if pyIn "FOLHA_KEY" setCookieHeader then
    ⟨.OK, some "Login efetuado com sucesso"⟩
  else
    ⟨.FAIL, some "Não foi possível efetuar o login"⟩

/-- Name of the first cookie in a set-cookie header: the text before the
first "=".  Stated from the spec wording that success requires the header to
carry the authentication cookie NAME, to compare with the substring test the
code performs. -/
def headerCookieName (h : String) : String :=
  ⟨h.data.takeWhile (fun c => c ≠ '=')⟩

/-- The payload of FolhaInvest.cancel, built with a defaultdict(list): one
"orders[]" entry per id (the key is absent when no id is appended) and one
"cancel" entry holding the fixed action token. -/
def cancelPayload (ordersId : List String) : List (String × List String) :=
  (if ordersId.isEmpty then [] else [("orders[]", ordersId)]) ++
    [("cancel", ["Remover ordens"])]

/-- A form POST request: target url and the multi-valued form fields. -/
structure FormRequest where
  url : String
  fields : List (String × List String)
deriving DecidableEq

/-- FolhaInvest.cancel, packaged version (src/folhainvest/folhainvest.py lines
346-380), as a function of the id list and the HTTP status code of the
response.  The request is built and issued unconditionally; the result is OK
only when the response status is 200 and the payload has more than one key. -/
def cancel (ordersId : List String) (httpStatus : Nat) : Status × FormRequest :=
  let payload := cancelPayload ordersId
  let r : FormRequest := ⟨geturl "ordens", payload⟩
  if httpStatus = 200 ∧ payload.length > 1 then
    (⟨.OK, some "Requisição enviada com sucesso"⟩, r)
  else
    (⟨.FAIL, some "Falha no envio da requisição"⟩, r)

/-- FolhaInvest.cancel, earlier draft (src/folhainvest.py lines 173-195): the
success condition is the HTTP status alone. -/
def cancelDraft (ordersId : List String) (httpStatus : Nat) : Status × FormRequest :=
  let payload := cancelPayload ordersId
  let r : FormRequest := ⟨geturl "ordens", payload⟩
  if httpStatus = 200 then
    (⟨.OK, some "Request successfuly sent"⟩, r)
  else
    (⟨.FAIL, some "Unable to send request"⟩, r)


/-- A node of the parsed HTML document: an element with a tag name, the exact
class-attribute text and children, or a text node.  BeautifulSoup find with
class_="message warning" matches elements whose class attribute equals that
text, so the class attribute is kept as one string. -/
inductive HtmlNode where
  | elem (tag : String) (cls : String) (children : List HtmlNode)
  | text (s : String)

/-- Children of a node (a text node has none). -/
def htmlChildren : HtmlNode → List HtmlNode
  | .elem _ _ cs => cs
  | .text _ => []

mutual

/-- BeautifulSoup find(class_=c) on one node: the node itself if its class
attribute equals c, otherwise the first match among its descendants. -/
def findClassN (c : String) : HtmlNode → Option HtmlNode
  | .text _ => none
  | .elem tg cl cs => if cl = c then some (.elem tg cl cs) else findClassF c cs

/-- BeautifulSoup find(class_=c) on a forest: first matching element in
document order, depth-first. -/
def findClassF (c : String) : List HtmlNode → Option HtmlNode
  | [] => none
  | n :: rest =>
    match findClassN c n with
    | some r => some r
    | none => findClassF c rest

end

mutual

/-- node.find(tag) on one node: the node itself if its tag name matches,
otherwise the first match among its descendants. -/
def findTagN (t : String) : HtmlNode → Option HtmlNode
  | .text _ => none
  | .elem tg cl cs => if tg = t then some (.elem tg cl cs) else findTagF t cs

/-- node.find(tag) on a forest: first matching element in document order,
depth-first. -/
def findTagF (t : String) : List HtmlNode → Option HtmlNode
  | [] => none
  | n :: rest =>
    match findTagN t n with
    | some r => some r
    | none => findTagF t rest

end

/-- BeautifulSoup tag.string: the single text child, recursing through a
single element child; None when the node has zero or several children. -/
def nodeString : HtmlNode → Option String
  | .text s => some s
  | .elem _ _ [c] => nodeString c
  | .elem _ _ _ => none

/-- The value argument of an order call: a Python float (carried by its str()
text), an int, or an already formatted string. -/
inductive PyNum where
  | float (repr : String)
  | int (n : Int)
  | str (s : String)
deriving DecidableEq

/-- The quantity argument of an order call: a Python int, float or string. -/
inductive PyQty where
  | int (n : Int)
  | float (x : Rat)
  | str (s : String)
deriving DecidableEq

/-- Python int(x) on a float: truncation toward zero, via T-division of the
numerator by the denominator. -/
def pyIntOfFloat (x : Rat) : Int := x.num.tdiv (x.den : Int)

/-- Lines 309-310 of _order: a float quantity is replaced by int(quantity);
ints and strings pass through unchanged. -/
def normalizeQuantity : PyQty → PyQty
  | .float x => .int (pyIntOfFloat x)
  | q => q

/-- Python str(float(n)) for an int n in the range where repr is exact
digits followed by ".0". -/
def intFloatRepr (n : Int) : String := toString n ++ ".0"

/-- The str() text the value argument holds just before the replace on lines
302-307: str(value) for a float, str(float(value)) for an int, the string
itself for a str. -/
def pyNumRepr : PyNum → String
  | .float r => r
  | .int n => intFloatRepr n
  | .str s => s

/-- Lines 302-307 of _order: every branch ends by replacing each "." with ","
in the text form of the value. -/
def orderValueField (v : PyNum) : String :=
  pyReplaceChar '.' ',' (pyNumRepr v)

/-- The form payload built by _order (lines 313-325): fixed execute token,
the normalized value text, the normalized quantity, and the pricing field
only when the pricing string is nonempty (Python truthiness of str). -/
structure OrderPayload where
  start_stop : Nat
  sell : Nat
  company : String
  value : String
  quantity : PyQty
  expiration_date : String
  execute : String
  pricing : Option String
deriving DecidableEq

/-- The submission POST issued by _order: its url and payload. -/
structure OrderRequest where
  url : String
  payload : OrderPayload
deriving DecidableEq

/-- The confirmation POST issued by _order on apparent success: posted to the
resolved url of the submission response, with the single form field
confirm=Confirmar. -/
structure ConfirmRequest where
  url : String
  confirm : String
deriving DecidableEq

/-- The submission response _order inspects: r.url (the resolved url the
response came from) and the parsed body. -/
structure OrderResponse where
  url : String
  doc : List HtmlNode

/-- FolhaInvest._order (src/folhainvest/folhainvest.py lines 260-343) as a
function of its arguments and of the submission response.  It returns the
submission request it posts and, unless the banner handling raises (warning
present but with no h2 descendant: AttributeError, modelled none), the Status
together with the list of confirmation requests issued afterwards.  The
confirmation response is never read, so it does not appear. -/
def order (url symbol : String) (value : PyNum) (quantity : PyQty)
    (expirationDate pricing : String) (startStop sellFlag : Nat)
    (resp : OrderResponse) :
    OrderRequest × Option (Status × List ConfirmRequest) :=
  let payload : OrderPayload :=
    { start_stop := startStop
      sell := sellFlag
      company := symbol
      value := orderValueField value
      quantity := normalizeQuantity quantity
      expiration_date := expirationDate
      execute := "Executar"
      pricing := if pricing = "" then none else some pricing }
  (⟨url, payload⟩,
    match findClassF "message warning" resp.doc with
    | none =>
      some (⟨.OK, some "Ordem enviada com sucesso"⟩, [⟨resp.url, "Confirmar"⟩])
    | some w =>
      match findTagF "h2" (htmlChildren w) with
      | none => none
      | some h => some (⟨.FAIL, nodeString h⟩, []))

/-- FolhaInvest.buy: endpoint comprar, flags start_stop=0 sell=0, pricing
passed through (default "fixed"). -/
def buy (symbol : String) (value : PyNum) (quantity : PyQty)
    (expirationDate pricing : String) (resp : OrderResponse) :
    OrderRequest × Option (Status × List ConfirmRequest) :=
  order (geturl "comprar") symbol value quantity expirationDate pricing 0 0 resp

/-- FolhaInvest.buy_start: endpoint start, flags start_stop=1 sell=0, no
pricing field. -/
def buy_start (symbol : String) (value : PyNum) (quantity : PyQty)
    (expirationDate : String) (resp : OrderResponse) :
    OrderRequest × Option (Status × List ConfirmRequest) :=
  order (geturl "start") symbol value quantity expirationDate "" 1 0 resp

/-- FolhaInvest.sell: endpoint vender, flags start_stop=0 sell=1, pricing
passed through (default "fixed"). -/
def sell (symbol : String) (value : PyNum) (quantity : PyQty)
    (expirationDate pricing : String) (resp : OrderResponse) :
    OrderRequest × Option (Status × List ConfirmRequest) :=
  order (geturl "vender") symbol value quantity expirationDate pricing 0 1 resp

/-- FolhaInvest.sell_stop: endpoint stop, flags start_stop=1 sell=1, no
pricing field. -/
def sell_stop (symbol : String) (value : PyNum) (quantity : PyQty)
    (expirationDate : String) (resp : OrderResponse) :
    OrderRequest × Option (Status × List ConfirmRequest) :=
  order (geturl "stop") symbol value quantity expirationDate "" 1 1 resp

/-- The raw cell texts of one order-book row, in column order as read by
orders_status (lines 405-415). -/
structure OrderRow where
  idCell : String
  typeCell : String
  symbolCell : String
  quantityCell : String
  valueCell : String
  expirationCell : String
  statusCell : String
deriving DecidableEq

/-- OrderStatus namedtuple, with the fields orders_status fills. -/
structure OrderStatusRec where
  id : Int
  type : String
  symbol : String
  quantity : Int
  value : Rat
  expiration_date : String
  status : String
deriving DecidableEq

/-- The per-row body of orders_status (lines 409-431): id via int(), quantity
via _cast_int, and the value cell mapped to 0.0 when it contains the
substring "mercado", otherwise through _cast_float.  A conversion failure is
an uncaught ValueError (`none`). -/
def ordersStatusRow (row : OrderRow) : Option OrderStatusRec :=
  match pyParseInt row.idCell with
  | none => none
  | some id =>
    match cast_int row.quantityCell with
    | none => none
    | some quantity =>
      match (if pyIn "mercado" row.valueCell then some 0 else cast_float row.valueCell) with
      | none => none
      | some value =>
        some ⟨id, row.typeCell, row.symbolCell, quantity, value,
          row.expirationCell, row.statusCell⟩

/-- FolhaInvest.orders_status over the data rows of the order table: each row
becomes one record, in source order; any row failure aborts the whole call. -/
def orders_status (rows : List OrderRow) : Option (List OrderStatusRec) :=
  rows.mapM ordersStatusRow

/-- Whether an order value argument is numeric (a Python float or int). -/
def PyNum.isNumeric : PyNum → Bool
  | .float _ => true
  | .int _ => true
  | .str _ => false

theorem map_dot_comma_no_dot (l : List Char) :
    (l.map (fun c => if c = '.' then ',' else c)).filter (fun c => c != '.') =
      l.map (fun c => if c = '.' then ',' else c) := by
  rw [List.filter_eq_self]
  intro c hc
  rcases List.mem_map.mp hc with ⟨a, _, rfl⟩
  by_cases ha : a = '.'
  · subst ha; decide
  · simp [ha, bne_iff_ne]

theorem map_comma_dot_cancel (l : List Char) (h : ',' ∉ l) :
    (l.map (fun c => if c = '.' then ',' else c)).map
        (fun c => if c = ',' then '.' else c) = l := by
  induction l with
  | nil => rfl
  | cons a t ih =>
    have ha : a ≠ ',' := fun e => h (e ▸ List.mem_cons_self a t)
    have ht : ',' ∉ t := fun m => h (List.mem_cons_of_mem a m)
    by_cases hd : a = '.'
    · subst hd; simp [ih ht]
    · simp [hd, ha, ih ht]

theorem cast_float_replace_roundtrip (s : String) (hnc : ',' ∉ s.data) :
    cast_float (pyReplaceChar '.' ',' s) = pyParseFloat s := by
  unfold cast_float pyRemoveChar pyReplaceChar
  rw [map_dot_comma_no_dot, map_comma_dot_cancel s.data hnc]

/-- C1: for every order submission (buy, buy_start, sell, sell_stop) whose
response document contains an element with class attribute "message warning",
the call returns Status FAIL with description equal to the text of the
banner's own h2 heading (the remote-supplied text), and no confirmation
request is issued. -/
theorem order_warning_rejected (symbol : String) (value : PyNum) (quantity : PyQty)
    (expirationDate pricing : String) (resp : OrderResponse) (w h : HtmlNode) (d : String)
    (hw : findClassF "message warning" resp.doc = some w)
    (hh : findTagF "h2" (htmlChildren w) = some h)
    (hd : nodeString h = some d) :
    (buy symbol value quantity expirationDate pricing resp).2 =
      some (⟨.FAIL, some d⟩, []) ∧
    (buy_start symbol value quantity expirationDate resp).2 =
      some (⟨.FAIL, some d⟩, []) ∧
    (sell symbol value quantity expirationDate pricing resp).2 =
      some (⟨.FAIL, some d⟩, []) ∧
    (sell_stop symbol value quantity expirationDate resp).2 =
      some (⟨.FAIL, some d⟩, []) := by
  refine ⟨?_, ?_, ?_, ?_⟩ <;>
    simp [buy, buy_start, sell, sell_stop, order, hw, hh, hd]

/-- Witness for C1 at a concrete rejected submission. -/
theorem order_warning_rejected_witness :
    (buy "PETR4" (.str "12,45") (.int 100) "31/12/2100" "fixed"
        ⟨"http://folhainvest.folha.uol.com.br/comprar",
          [.elem "div" "message warning"
            [.elem "h2" "" [.text "Não foi possível enviar a ordem"]]]⟩).2 =
      some (⟨.FAIL, some "Não foi possível enviar a ordem"⟩, []) :=
  (order_warning_rejected "PETR4" (.str "12,45") (.int 100) "31/12/2100" "fixed"
    ⟨"http://folhainvest.folha.uol.com.br/comprar",
      [.elem "div" "message warning"
        [.elem "h2" "" [.text "Não foi possível enviar a ordem"]]]⟩
    (.elem "div" "message warning"
      [.elem "h2" "" [.text "Não foi possível enviar a ordem"]])
    (.elem "h2" "" [.text "Não foi possível enviar a ordem"])
    "Não foi possível enviar a ordem" rfl rfl rfl).1

/-- C2: for every order submission whose response document lacks the warning
banner, the call issues exactly one confirmation request, a POST of the fixed
confirm=Confirmar token to the resolved url the submission response came
from, returns Status OK with the synthesized success description, and never
reads the confirmation response (the model does not even take one). -/
theorem order_confirm_once (symbol : String) (value : PyNum) (quantity : PyQty)
    (expirationDate pricing : String) (resp : OrderResponse)
    (hw : findClassF "message warning" resp.doc = none) :
    (buy symbol value quantity expirationDate pricing resp).2 =
      some (⟨.OK, some "Ordem enviada com sucesso"⟩, [⟨resp.url, "Confirmar"⟩]) ∧
    (buy_start symbol value quantity expirationDate resp).2 =
      some (⟨.OK, some "Ordem enviada com sucesso"⟩, [⟨resp.url, "Confirmar"⟩]) ∧
    (sell symbol value quantity expirationDate pricing resp).2 =
      some (⟨.OK, some "Ordem enviada com sucesso"⟩, [⟨resp.url, "Confirmar"⟩]) ∧
    (sell_stop symbol value quantity expirationDate resp).2 =
      some (⟨.OK, some "Ordem enviada com sucesso"⟩, [⟨resp.url, "Confirmar"⟩]) := by
  refine ⟨?_, ?_, ?_, ?_⟩ <;>
    simp [buy, buy_start, sell, sell_stop, order, hw]

/-- Witness for C2 at a concrete accepted submission. -/
theorem order_confirm_once_witness :
    (sell "VALE3" (.str "31,20") (.int 200) "31/12/2100" "fixed"
        ⟨"http://folhainvest.folha.uol.com.br/vender",
          [.elem "div" "content" [.text "confirme a ordem"]]⟩).2 =
      some (⟨.OK, some "Ordem enviada com sucesso"⟩,
        [⟨"http://folhainvest.folha.uol.com.br/vender", "Confirmar"⟩]) :=
  (order_confirm_once "VALE3" (.str "31,20") (.int 200) "31/12/2100" "fixed"
    ⟨"http://folhainvest.folha.uol.com.br/vender",
      [.elem "div" "content" [.text "confirme a ordem"]]⟩ rfl).2.2.1

/-- C3 counterexample: with an empty id list the request is still issued with
only the cancel token, yet even when the HTTP response is accepted (status
200) the packaged cancel returns FAIL, because its success condition also
requires the payload to hold more than the one cancel key. -/
theorem cancel_empty_accepted_but_fail :
    (cancel [] 200).2 = ⟨geturl "ordens", [("cancel", ["Remover ordens"])]⟩ ∧
    (cancel [] 200).1.status_code = .FAIL := by decide

/-- C3 amended: cancel always issues one request to the ordens url carrying
the repeated order ids (key absent when the list is empty) plus the fixed
cancel token; the packaged version returns OK iff the HTTP status is 200 and
at least one id was supplied, while the earlier draft returns OK iff the
HTTP status is 200 alone. -/
theorem cancel_request_and_status (ordersId : List String) (httpStatus : Nat) :
    (cancel ordersId httpStatus).2 = ⟨geturl "ordens", cancelPayload ordersId⟩ ∧
    ((cancel ordersId httpStatus).1.status_code = .OK ↔
      httpStatus = 200 ∧ ordersId ≠ []) ∧
    ((cancelDraft ordersId httpStatus).1.status_code = .OK ↔ httpStatus = 200) := by
  refine ⟨?_, ?_, ?_⟩
  · by_cases hc : httpStatus = 200 ∧ (cancelPayload ordersId).length > 1 <;>
      simp [cancel, hc]
  · by_cases h2 : httpStatus = 200
    · cases ordersId with
      | nil => simp [cancel, cancelPayload, h2]
      | cons a t => simp [cancel, cancelPayload, h2]
    · simp [cancel, h2]
  · by_cases h2 : httpStatus = 200 <;> simp [cancelDraft, h2]

/-- C4 counterexample: a set-cookie header whose only cookie is named
XFOLHA_KEY, not FOLHA_KEY, still makes login return OK, because the code
tests substring containment, not the cookie name. -/
theorem login_similar_cookie_ok :
    login "XFOLHA_KEY=abc" = ⟨.OK, some "Login efetuado com sucesso"⟩ ∧
    headerCookieName "XFOLHA_KEY=abc" = "XFOLHA_KEY" ∧
    "XFOLHA_KEY" ≠ "FOLHA_KEY" := by decide

/-- C4 amended: login returns OK iff the literal text FOLHA_KEY occurs as a
substring of the set-cookie header; a differently-named cookie whose name
contains FOLHA_KEY as a substring therefore also yields OK, and only headers
without the substring yield FAIL. -/
theorem login_ok_iff_substring (h : String) :
    (login h).status_code = .OK ↔ pyIn "FOLHA_KEY" h = true := by
  by_cases hc : pyIn "FOLHA_KEY" h <;> simp [login, hc]

/-- C5: evaluating the code at the claimed inputs: _cast_rank("3º") and
_cast_rank("12º lugar") raise ValueError (modelled none) instead of
returning 3 and 12, because int() rejects the ordinal-indicator character
that the first space-separated token still carries. -/
theorem cast_rank_ordinal_raises :
    cast_rank "3º" = none ∧ cast_rank "12º lugar" = none ∧ cast_int "3º" = none := by
  decide

/-- C6 counterexample: an order call whose quantity is the non-integral real
10.5 is not rejected: the payload is built with the quantity truncated to the
integer 10 and the submission completes normally. -/
theorem order_nonintegral_quantity_accepted :
    (buy "PETR4" (.str "12,45") (.float (mkRat 21 2)) "31/12/2100" "fixed"
        ⟨geturl "comprar", []⟩).1.payload.quantity = PyQty.int 10 ∧
    (buy "PETR4" (.str "12,45") (.float (mkRat 21 2)) "31/12/2100" "fixed"
        ⟨geturl "comprar", []⟩).2 =
      some (⟨.OK, some "Ordem enviada com sucesso"⟩, [⟨geturl "comprar", "Confirmar"⟩]) := by
  exact ⟨rfl, rfl⟩

/-- C6 amended: a float quantity is never rejected: it is truncated toward
zero by int() before the payload is built, so the call behaves exactly as if
the truncated integer had been passed; integer quantities pass through
unchanged. -/
theorem order_quantity_truncation (url symbol : String) (v : PyNum)
    (expirationDate pricing : String) (ss sf : Nat) (resp : OrderResponse)
    (x : Rat) (n : Int) :
    order url symbol v (.float x) expirationDate pricing ss sf resp =
      order url symbol v (.int (x.num.tdiv (x.den : Int))) expirationDate pricing ss sf resp ∧
    (order url symbol v (.float x) expirationDate pricing ss sf resp).1.payload.quantity =
      PyQty.int (x.num.tdiv (x.den : Int)) ∧
    (order url symbol v (.int n) expirationDate pricing ss sf resp).1.payload.quantity =
      PyQty.int n := by
  exact ⟨rfl, rfl, rfl⟩

/-- C7 counterexample: a row whose value cell is "0,00" does not contain the
market marker, yet its record value is exactly 0, so value equal to 0 does
not imply an at-market order. -/
theorem orders_status_zero_value_not_market :
    orders_status [⟨"1", "Compra", "PETR4", "100", "0,00", "31/12/2100", "Pendente"⟩] =
      some [⟨1, "Compra", "PETR4", 100, 0, "31/12/2100", "Pendente"⟩] ∧
    pyIn "mercado" "0,00" = false := by decide

/-- C7 amended: for every order-book row that produces a record, the value is
exactly 0 whenever the raw cell contains the marker substring "mercado",
whatever else the cell holds, and for rows without the marker the value is
the parsed decimal of the cell; the parsed decimal itself may also be 0. -/
theorem orders_status_market_value (row : OrderRow) (rec : OrderStatusRec)
    (h : ordersStatusRow row = some rec) :
    (pyIn "mercado" row.valueCell = true → rec.value = 0) ∧
    (pyIn "mercado" row.valueCell = false → cast_float row.valueCell = some rec.value) := by
  cases hid : pyParseInt row.idCell with
  | none => simp [ordersStatusRow, hid] at h
  | some i =>
    cases hq : cast_int row.quantityCell with
    | none => simp [ordersStatusRow, hid, hq] at h
    | some q =>
      by_cases hm : pyIn "mercado" row.valueCell = true
      · simp only [ordersStatusRow, hid, hq, if_pos hm, Option.some.injEq] at h
        subst h
        exact ⟨fun _ => rfl, fun hf => absurd hm (by simp [hf])⟩
      · cases hv : cast_float row.valueCell with
        | none => simp [ordersStatusRow, hid, hq, if_neg hm, hv] at h
        | some v =>
          simp only [ordersStatusRow, hid, hq, if_neg hm, hv, Option.some.injEq] at h
          subst h
          exact ⟨fun ht => absurd ht hm, fun _ => rfl⟩

/-- Witness for C7 amended at a concrete at-market row. -/
theorem orders_status_market_value_witness :
    ordersStatusRow ⟨"2", "Compra", "VALE3", "50", "a mercado", "31/12/2100", "Pendente"⟩ =
      some ⟨2, "Compra", "VALE3", 50, 0, "31/12/2100", "Pendente"⟩ ∧
    (⟨2, "Compra", "VALE3", 50, 0, "31/12/2100", "Pendente"⟩ : OrderStatusRec).value = 0 :=
  ⟨by decide,
    (orders_status_market_value
      ⟨"2", "Compra", "VALE3", "50", "a mercado", "31/12/2100", "Pendente"⟩
      ⟨2, "Compra", "VALE3", 50, 0, "31/12/2100", "Pendente"⟩ (by decide)).1 (by decide)⟩

/-- C8: for every numeric price value, the locale decimal-comma text the
submission transmits, re-parsed with _cast_float, yields the original value
exactly; the value is carried by its Python str() text, which parses back to
the value and never contains a comma. -/
theorem order_price_roundtrip (v : PyNum) (q : Rat)
    (_hn : v.isNumeric = true)
    (hc : ',' ∉ (pyNumRepr v).data)
    (hp : pyParseFloat (pyNumRepr v) = some q) :
    cast_float (orderValueField v) = some q := by
  unfold orderValueField
  rw [cast_float_replace_roundtrip (pyNumRepr v) hc, hp]

/-- Witness for C8 at the float whose str() text is "12.45". -/
theorem order_price_roundtrip_witness :
    PyNum.isNumeric (.float "12.45") = true ∧
    (',' ∉ (pyNumRepr (.float "12.45")).data) ∧
    pyParseFloat (pyNumRepr (.float "12.45")) = some (mkRat 249 20) ∧
    cast_float (orderValueField (.float "12.45")) = some (mkRat 249 20) :=
  ⟨by decide, by decide, by decide,
    order_price_roundtrip (.float "12.45") (mkRat 249 20) (by decide) (by decide) (by decide)⟩

/-- C9: when the price is supplied as pre-formatted text, the value placed in
the request payload is the input with every "." turned into ","; in
particular the grouped text "1.234,56" is transmitted as "1,234,56". -/
theorem order_text_price_dots_to_commas (symbol : String) (q : PyQty)
    (expirationDate pricing : String) (resp : OrderResponse) (s : String) :
    (buy symbol (.str s) q expirationDate pricing resp).1.payload.value =
      pyReplaceChar '.' ',' s ∧
    (buy symbol (.str "1.234,56") q expirationDate pricing resp).1.payload.value =
      "1,234,56" := by
  exact ⟨rfl, rfl⟩

/-- C10: the normalizers are more lenient than a locale-shape check:
_cast_int and _cast_float strip every "." wherever it occurs and
_cast_percentage removes every "%", so inputs like "1.2.3", "1.2.34,5" and
"12%3" convert successfully instead of failing. -/
theorem normalizer_lenient_inputs :
    cast_int "1.2.3" = some 123 ∧
    cast_float "1.2.34,5" = some (mkRat 12345 10) ∧
    cast_percentage "12%3" = some (123 : Rat) ∧
    cast_percentage "1%2%3" = some (123 : Rat) := by decide
